import Mathlib

/-
Verification of the language-pair translation request service of
google-translate-clone: a shallow embedding of `language.type.ts`
(the Language Registry) and `app/models/translate.server.ts`
(the Translation Service), with the external chat-completion call
modelled as an oracle with explicit world state.
-/

/-- A supported input language, as declared in `language.type.ts`:
an identifier (a short code or the sentinel "auto") and a
human-readable display name. -/
structure LanguageInput where
  id : String
  name : String
  deriving DecidableEq

/-- A supported output language, as declared in `language.type.ts`. -/
structure LanguageOutput where
  id : String
  name : String
  deriving DecidableEq

/-- `getSupportedInputLanguages` from `language.type.ts`: the fixed
four-element input catalog, in source order. -/
def getSupportedInputLanguages : List LanguageInput :=
  [⟨"auto", "Auto"⟩, ⟨"en", "English"⟩, ⟨"es", "Español"⟩, ⟨"de", "Deutsch"⟩]

/-- `getSupportedOutputLanguages` from `language.type.ts`: the fixed
three-element output catalog, in source order. -/
def getSupportedOutputLanguages : List LanguageOutput :=
  [⟨"en", "English"⟩, ⟨"es", "Español"⟩, ⟨"de", "Deutsch"⟩]

/-- Role tag of a chat message. -/
inductive ChatRole where
  | system
  | user
  | assistant
  deriving DecidableEq

/-- A chat message submitted to the completion API. -/
structure ChatMessage where
  role : ChatRole
  content : String
  deriving DecidableEq

/-- The message carried by one completion choice; its `content` field is
`string | null` in the SDK, modelled as `Option String`. -/
structure CompletionMessage where
  content : Option String
  deriving DecidableEq

/-- One completion choice of a response. -/
structure CompletionChoice where
  message : CompletionMessage
  deriving DecidableEq

/-- A chat-completion response: its array of choices. -/
structure ChatCompletion where
  choices : List CompletionChoice
  deriving DecidableEq

/-- The request `translateText` submits: the message sequence and the
fixed model identifier (translate.server.ts lines 38-73). -/
structure CompletionRequest where
  messages : List ChatMessage
  model : String
  deriving DecidableEq

/-- JS template-literal interpolation of a value of type
`string | undefined`: an `undefined` value prints as the literal
text "undefined". -/
def jsInterpolate : Option String → String
  | some s => s
  | none => "undefined"

/-- JS `x || ""` for `x : string | null`: the falsy values `null` and
`""` yield `""`; any other string is returned unchanged
(translate.server.ts line 76). -/
def jsOrElseEmpty : Option String → String
  | some s => if s = "" then "" else s
  | none => ""

/-- The fixed system instruction (translate.server.ts line 42). -/
def systemInstruction : String :=
  "You are an AI that translates text. You receive a text from the user. Do not answer, just translate the text. The original language is surrounded by `\x7b\x7b` and `\x7d\x7d`. You can also receive \x7b\x7bauto\x7d\x7d wich means that you have to detect the language. The language you translate to is surrounded by `[[` and `]]`."

/-- The final user message content (translate.server.ts line 70): the
input text, then the source display name in double-curly markers, then
the target display name in double-square markers. A display name that is
`undefined` (a registry miss) interpolates as the text "undefined",
exactly as the JS template literal does. -/
def finalUserContent (fromLanguage toLanguage : Option String) (inputText : String) : String :=
  inputText ++ " \x7b\x7b" ++ jsInterpolate fromLanguage ++ "\x7d\x7d [[" ++ jsInterpolate toLanguage ++ "]]"

/-- The full message sequence built by `translateText`
(translate.server.ts lines 38-72): the system instruction, three worked
few-shot example pairs, then the final user message. -/
def promptMessages (fromLanguage toLanguage : Option String) (inputText : String) : List ChatMessage :=
  [⟨ChatRole.system, systemInstruction⟩,
   ⟨ChatRole.user, "Hola mundo \x7b\x7bEspañol\x7d\x7d [[English]]"⟩,
   ⟨ChatRole.assistant, "Hello world"⟩,
   ⟨ChatRole.user, "How are you? \x7b\x7bAuto\x7d\x7d [[Deutsch]]"⟩,
   ⟨ChatRole.assistant, "Wie geht es dir?"⟩,
   ⟨ChatRole.user, "Buen día, como estás? \x7b\x7bAuto\x7d\x7d [[English]]"⟩,
   ⟨ChatRole.assistant, "Good morning, how are you?"⟩,
   ⟨ChatRole.user, finalUserContent fromLanguage toLanguage inputText⟩]

/-- The fixed model identifier (translate.server.ts line 73). -/
def modelId : String := "llama3-70b-8192"

/-- `getSupportedInputLanguages().find((lang) => lang.id === fromLanguageId)?.name`
(translate.server.ts lines 28-30). -/
def resolveInputName (fromLanguageId : String) : Option String :=
  (getSupportedInputLanguages.find? (fun lang => lang.id == fromLanguageId)).map
    (fun lang => lang.name)

/-- `getSupportedOutputLanguages().find((lang) => lang.id === toLanguageId)?.name`
(translate.server.ts lines 32-34). -/
def resolveOutputName (toLanguageId : String) : Option String :=
  (getSupportedOutputLanguages.find? (fun lang => lang.id == toLanguageId)).map
    (fun lang => lang.name)

/-- The complete request `translateText` assembles on the non-identity
path: display names resolved from the registries, the prompt message
sequence, and the fixed model identifier. -/
def translateRequest (fromLanguageId toLanguageId inputText : String) : CompletionRequest :=
  let fromLanguage := resolveInputName fromLanguageId
  let toLanguage := resolveOutputName toLanguageId
  ⟨promptMessages fromLanguage toLanguage inputText, modelId⟩

/-- The external chat-completion boundary with explicit world state `σ`
(network, remote service): one step consumes a request and yields either
a thrown error (`Except.error`) or a response, together with the next
world state. -/
structure CallOracle (σ : Type) where
  step : σ → CompletionRequest → Except Unit ChatCompletion × σ

/-- Shallow embedding of `translateText` (translate.server.ts lines
15-80) against an external-call oracle, the world state passed
explicitly. The identity short-circuit returns the input text before
any lookup or call; otherwise one request is submitted and the result is
the first choice's content (`|| ""`). An empty `choices` array makes
`result.choices[0].message` throw inside the `try` in JS, so it lands in
the same catch branch; every thrown error maps to the fixed failure
string. -/
def translateTextSt {σ : Type} (o : CallOracle σ) (s : σ)
    (fromLanguageId toLanguageId inputText : String) : String × σ :=
  if fromLanguageId = toLanguageId then
    (inputText, s)
  else
    match o.step s (translateRequest fromLanguageId toLanguageId inputText) with
    | (Except.error _, s2) => ("Error translating text", s2)
    | (Except.ok result, s2) =>
      match result.choices with
      | [] => ("Error translating text", s2)
      | choice :: _ => (jsOrElseEmpty choice.message.content, s2)

/-- An oracle wrapping a pure call function, whose world state is the
log of requests submitted so far. -/
def loggingOracle (call : CompletionRequest → Except Unit ChatCompletion) :
    CallOracle (List CompletionRequest) :=
  ⟨fun log request => (call request, log ++ [request])⟩

/-- `translateText` run against a pure call function: returns the final
string together with the list of requests submitted to the external
API. -/
def translateTextRun (call : CompletionRequest → Except Unit ChatCompletion)
    (fromLanguageId toLanguageId inputText : String) :
    String × List CompletionRequest :=
  translateTextSt (loggingOracle call) [] fromLanguageId toLanguageId inputText

/-- The module-initialization check of translate.server.ts (lines 9-13):
`process.env.GROQ_API_KEY` modelled as `Option String`; a missing value
throws `"Missing env: GROQ_API_KEY"` when the module loads, otherwise
the key is bound. -/
def groqApiKeyCheck : Option String → Except String String
  | none => Except.error "Missing env: GROQ_API_KEY"
  | some key => Except.ok key

/-- Serving one translation request: the module that defines
`translateText` must load first, so the credential check runs before any
request is handled; once it passes, the request is handled by
`translateText`, which never consults the credential again (the key only
parameterizes the HTTP client abstracted by the oracle). -/
def serveTranslate {σ : Type} (env : Option String)
    (o : CallOracle σ) (s : σ)
    (fromLanguageId toLanguageId inputText : String) :
    Except String (String × σ) :=
  match groqApiKeyCheck env with
  | Except.error e => Except.error e
  | Except.ok _ => Except.ok (translateTextSt o s fromLanguageId toLanguageId inputText)

/-- On the non-identity path, `translateText` with a pure call function
submits exactly the assembled request once and maps its outcome as the
source does. -/
theorem translateTextRun_eq (call : CompletionRequest → Except Unit ChatCompletion)
    (a b t : String) (hne : a ≠ b) :
    translateTextRun call a b t =
      ((match call (translateRequest a b t) with
        | Except.error _ => "Error translating text"
        | Except.ok result =>
          match result.choices with
          | [] => "Error translating text"
          | choice :: _ => jsOrElseEmpty choice.message.content),
       [translateRequest a b t]) := by
  unfold translateTextRun translateTextSt
  rw [if_neg hne]
  have hstep : (loggingOracle call).step [] (translateRequest a b t) =
      (call (translateRequest a b t), [translateRequest a b t]) := rfl
  rw [hstep]
  cases call (translateRequest a b t) with
  | error e => rfl
  | ok result =>
    obtain ⟨choices⟩ := result
    cases choices <;> rfl

/-- Claim C1: for every language identifier L and every text t,
`translateText L L t` returns t unchanged with no request submitted,
and (for any oracle whatsoever) the world state is untouched: the
equality check precedes every registry lookup and all network
activity. -/
theorem c1_identity_short_circuit (L t : String) :
    (∀ call, translateTextRun call L L t = (t, [])) ∧
    (∀ (σ : Type) (o : CallOracle σ) (s : σ), translateTextSt o s L L t = (t, s)) := by
  refine ⟨fun call => ?_, fun σ o s => ?_⟩ <;> simp [translateTextRun, translateTextSt]

/-- Claim C1 witness: at a concrete language and text, the call log is
empty and the text comes back unchanged. -/
theorem c1_identity_short_circuit_witness :
    translateTextRun (fun _ => Except.error ()) "en" "en" "Hola" = ("Hola", []) :=
  (c1_identity_short_circuit "en" "Hola").1 (fun _ => Except.error ())

/-- Claim C2: when source and target differ and the external call throws
(whatever the request), `translateText` returns the fixed failure
string; being a total function into `String`, it lets no exception
escape the service boundary. -/
theorem c2_failure_policy (call : CompletionRequest → Except Unit ChatCompletion)
    (a b t : String) (hne : a ≠ b)
    (hfail : ∀ r, call r = Except.error ()) :
    (translateTextRun call a b t).1 = "Error translating text" := by
  rw [translateTextRun_eq call a b t hne, hfail]

/-- Claim C2 witness: a concrete failing call yields the failure
string. -/
theorem c2_failure_policy_witness :
    (translateTextRun (fun _ => Except.error ()) "es" "en" "Hola mundo").1 =
      "Error translating text" :=
  c2_failure_policy (fun _ => Except.error ()) "es" "en" "Hola mundo"
    (by decide) (fun _ => rfl)

/-- Claim C5: the input catalog has exactly 4 entries with identifiers
in the fixed order auto, en, es, de; the output catalog has exactly 3
entries with identifiers in the fixed order en, es, de; every output
identifier is an input identifier and auto is not an output
identifier. -/
theorem c5_registry_catalogs :
    getSupportedInputLanguages.map LanguageInput.id = ["auto", "en", "es", "de"] ∧
    getSupportedInputLanguages.length = 4 ∧
    getSupportedOutputLanguages.map LanguageOutput.id = ["en", "es", "de"] ∧
    getSupportedOutputLanguages.length = 3 ∧
    (∀ i ∈ getSupportedOutputLanguages.map LanguageOutput.id,
      i ∈ getSupportedInputLanguages.map LanguageInput.id) ∧
    "auto" ∉ getSupportedOutputLanguages.map LanguageOutput.id := by
  refine ⟨rfl, rfl, rfl, rfl, ?_, ?_⟩ <;> decide

/-- Claim C3: when source and target differ and both identifiers resolve
in their registries, exactly one request is submitted; its message
sequence ends in exactly one user message (the message just before it is
an assistant message), and that final message is the input text
unmodified, then the resolved source display name in double-curly
markers and the resolved target display name in double-square
markers. -/
theorem c3_trailing_user_message (call : CompletionRequest → Except Unit ChatCompletion)
    (a b t nf nt : String) (hne : a ≠ b)
    (hf : resolveInputName a = some nf) (ht : resolveOutputName b = some nt) :
    (translateTextRun call a b t).2 = [translateRequest a b t] ∧
    ∃ ms, (translateRequest a b t).messages =
        ms ++ [⟨ChatRole.user, t ++ " \x7b\x7b" ++ nf ++ "\x7d\x7d [[" ++ nt ++ "]]"⟩] ∧
      ms.getLast? = some ⟨ChatRole.assistant, "Good morning, how are you?"⟩ := by
  refine ⟨by rw [translateTextRun_eq call a b t hne], ?_⟩
  refine ⟨[⟨ChatRole.system, systemInstruction⟩,
    ⟨ChatRole.user, "Hola mundo \x7b\x7bEspañol\x7d\x7d [[English]]"⟩,
    ⟨ChatRole.assistant, "Hello world"⟩,
    ⟨ChatRole.user, "How are you? \x7b\x7bAuto\x7d\x7d [[Deutsch]]"⟩,
    ⟨ChatRole.assistant, "Wie geht es dir?"⟩,
    ⟨ChatRole.user, "Buen día, como estás? \x7b\x7bAuto\x7d\x7d [[English]]"⟩,
    ⟨ChatRole.assistant, "Good morning, how are you?"⟩], ?_, rfl⟩
  show (promptMessages (resolveInputName a) (resolveOutputName b) t) = _
  rw [hf, ht]
  rfl

/-- Claim C3 witness: the concrete pair es → en with text "Hola mundo"
resolves to Español and English and yields that trailing user
message. -/
theorem c3_trailing_user_message_witness :
    (translateTextRun (fun _ => Except.error ()) "es" "en" "Hola mundo").2 =
      [translateRequest "es" "en" "Hola mundo"] ∧
    ∃ ms, (translateRequest "es" "en" "Hola mundo").messages =
        ms ++ [⟨ChatRole.user,
          "Hola mundo" ++ " \x7b\x7b" ++ "Español" ++ "\x7d\x7d [[" ++ "English" ++ "]]"⟩] ∧
      ms.getLast? = some ⟨ChatRole.assistant, "Good morning, how are you?"⟩ :=
  c3_trailing_user_message (fun _ => Except.error ()) "es" "en" "Hola mundo"
    "Español" "English" (by decide) rfl rfl

/-- Claim C4 counterexample: with the source identifier "xx" absent from
the input registry, the submitted final user message carries the literal
text "undefined" inside the curly markers — not the empty string the
claim asserts. -/
theorem c4_counterexample_undefined_marker :
    (translateTextRun (fun _ => Except.error ()) "xx" "en" "Hola").2.map
        (fun r => r.messages.getLast?) =
      [some ⟨ChatRole.user, "Hola \x7b\x7bundefined\x7d\x7d [[English]]"⟩] ∧
    "Hola \x7b\x7bundefined\x7d\x7d [[English]]" ≠ "Hola \x7b\x7b\x7d\x7d [[English]]" := by
  exact ⟨by decide, by decide⟩

/-- Claim C4 as amended: on a registry miss (source ≠ target), the
request is still assembled and issued exactly once, with the JS
rendering of the undefined display name — the literal string
"undefined" — inside the corresponding markers. -/
theorem c4_lookup_miss_still_requests (call : CompletionRequest → Except Unit ChatCompletion)
    (a b t : String) (hne : a ≠ b) :
    (translateTextRun call a b t).2 = [translateRequest a b t] ∧
    (resolveInputName a = none →
      (translateRequest a b t).messages.getLast? =
        some ⟨ChatRole.user,
          t ++ " \x7b\x7b" ++ "undefined" ++ "\x7d\x7d [[" ++ jsInterpolate (resolveOutputName b) ++ "]]"⟩) ∧
    (resolveOutputName b = none →
      (translateRequest a b t).messages.getLast? =
        some ⟨ChatRole.user,
          t ++ " \x7b\x7b" ++ jsInterpolate (resolveInputName a) ++ "\x7d\x7d [[" ++ "undefined" ++ "]]"⟩) := by
  refine ⟨by rw [translateTextRun_eq call a b t hne], fun hf => ?_, fun ht => ?_⟩
  · show (promptMessages (resolveInputName a) (resolveOutputName b) t).getLast? = _
    rw [hf]
    rfl
  · show (promptMessages (resolveInputName a) (resolveOutputName b) t).getLast? = _
    rw [ht]
    rfl

/-- Claim C4 amended witness: the missing source identifier "xx" still
produces one request, whose final message marks the source as
"undefined". -/
theorem c4_lookup_miss_still_requests_witness :
    (translateTextRun (fun _ => Except.ok ⟨[]⟩) "xx" "en" "Hola").2 =
      [translateRequest "xx" "en" "Hola"] ∧
    (translateRequest "xx" "en" "Hola").messages.getLast? =
      some ⟨ChatRole.user,
        "Hola" ++ " \x7b\x7b" ++ "undefined" ++ "\x7d\x7d [[" ++ jsInterpolate (resolveOutputName "en") ++ "]]"⟩ :=
  ⟨(c4_lookup_miss_still_requests (fun _ => Except.ok ⟨[]⟩) "xx" "en" "Hola" (by decide)).1,
   (c4_lookup_miss_still_requests (fun _ => Except.ok ⟨[]⟩) "xx" "en" "Hola" (by decide)).2.1 rfl⟩

/-- Claim C6: on a successful external call whose response has a first
choice, `translateText` returns that choice's text content; if the
content is absent (null) or empty it returns the empty string — the
return type is `String`, so never null or undefined. -/
theorem c6_result_extraction (call : CompletionRequest → Except Unit ChatCompletion)
    (a b t : String) (resp : ChatCompletion)
    (choice : CompletionChoice) (rest : List CompletionChoice)
    (hne : a ≠ b) (hcall : ∀ r, call r = Except.ok resp)
    (hch : resp.choices = choice :: rest) :
    (∀ s, choice.message.content = some s → s ≠ "" →
      (translateTextRun call a b t).1 = s) ∧
    ((choice.message.content = none ∨ choice.message.content = some "") →
      (translateTextRun call a b t).1 = "") := by
  have hrun : (translateTextRun call a b t).1 = jsOrElseEmpty choice.message.content := by
    rw [translateTextRun_eq call a b t hne]
    simp only [hcall, hch]
  constructor
  · intro s hs hsne
    rw [hrun, hs]
    simp [jsOrElseEmpty, hsne]
  · intro h
    rcases h with h | h <;> rw [hrun, h] <;> simp [jsOrElseEmpty]

/-- Claim C6 witness: a mocked response whose first choice carries
"Hello" makes the service return "Hello". -/
theorem c6_result_extraction_witness :
    (translateTextRun (fun _ => Except.ok ⟨[⟨⟨some "Hello"⟩⟩]⟩) "es" "en" "Hola").1 = "Hello" :=
  (c6_result_extraction (fun _ => Except.ok ⟨[⟨⟨some "Hello"⟩⟩]⟩) "es" "en" "Hola"
      ⟨[⟨⟨some "Hello"⟩⟩]⟩ ⟨⟨some "Hello"⟩⟩ [] (by decide) (fun _ => rfl) rfl).1
    "Hello" rfl (by decide)

/-- Claim C7: `translateText "es" "en" "Hola mundo"` submits a prompt
whose final user message is exactly "Hola mundo" followed by Español in
curly markers and English in square markers, and with the external call
mocked to answer "Hello world" the service returns "Hello world". -/
theorem c7_concrete_scenario :
    (translateTextRun (fun _ => Except.ok ⟨[⟨⟨some "Hello world"⟩⟩]⟩)
        "es" "en" "Hola mundo").1 = "Hello world" ∧
    (translateTextRun (fun _ => Except.ok ⟨[⟨⟨some "Hello world"⟩⟩]⟩)
        "es" "en" "Hola mundo").2.map (fun r => r.messages.getLast?) =
      [some ⟨ChatRole.user, "Hola mundo \x7b\x7bEspañol\x7d\x7d [[English]]"⟩] := by
  exact ⟨by decide, by decide⟩

/-- Claim C8: with the credential absent, serving fails at module
initialization with the startup error, before any translation work
happens (for every request whatsoever); with any credential present, the
request is served by `translateText` with no per-request credential
error — the outcome is independent of the key's value. -/
theorem c8_startup_credential :
    (∀ (σ : Type) (o : CallOracle σ) (s : σ) (a b t : String),
      serveTranslate none o s a b t = Except.error "Missing env: GROQ_API_KEY") ∧
    (∀ (key : String) (σ : Type) (o : CallOracle σ) (s : σ) (a b t : String),
      serveTranslate (some key) o s a b t = Except.ok (translateTextSt o s a b t)) :=
  ⟨fun _ _ _ _ _ _ => rfl, fun _ _ _ _ _ _ _ => rfl⟩

/-- With a deterministic (world-state-independent) external response,
the text `translateText` returns depends only on its arguments. -/
theorem translateTextSt_fst_of_det {σ : Type} (o : CallOracle σ)
    (f : CompletionRequest → Except Unit ChatCompletion)
    (hdet : ∀ s r, (o.step s r).1 = f r)
    (a b t : String) (s : σ) :
    (translateTextSt o s a b t).1 =
      if a = b then t
      else
        match f (translateRequest a b t) with
        | Except.error _ => "Error translating text"
        | Except.ok result =>
          match result.choices with
          | [] => "Error translating text"
          | choice :: _ => jsOrElseEmpty choice.message.content := by
  by_cases h : a = b
  · simp [translateTextSt, h]
  · rw [if_neg h]
    unfold translateTextSt
    rw [if_neg h]
    have hres := hdet s (translateRequest a b t)
    cases hstep : o.step s (translateRequest a b t) with
    | mk res s2 =>
      rw [hstep] at hres
      rw [← hres]
      cases res with
      | error e => rfl
      | ok result =>
        obtain ⟨choices⟩ := result
        cases choices <;> rfl

/-- Claim C9: with the external model call fixed to a deterministic
response function, a second invocation of `translateText` with identical
arguments — run from whatever world state the first invocation left —
returns the same text as the first; the function keeps no local state
between calls. -/
theorem c9_deterministic_idempotent {σ : Type} (o : CallOracle σ)
    (f : CompletionRequest → Except Unit ChatCompletion)
    (hdet : ∀ s r, (o.step s r).1 = f r)
    (a b t : String) (s : σ) :
    (translateTextSt o (translateTextSt o s a b t).2 a b t).1 =
      (translateTextSt o s a b t).1 := by
  rw [translateTextSt_fst_of_det o f hdet, translateTextSt_fst_of_det o f hdet]

/-- Claim C9 witness: a concrete deterministic oracle (over a unit world
state) gives the same answer on the repeated call. -/
theorem c9_deterministic_idempotent_witness :
    (translateTextSt (⟨fun s _ => (Except.ok ⟨[⟨⟨some "Hi"⟩⟩]⟩, s)⟩ : CallOracle Unit)
        (translateTextSt (⟨fun s _ => (Except.ok ⟨[⟨⟨some "Hi"⟩⟩]⟩, s)⟩ : CallOracle Unit)
          () "es" "en" "Hola").2 "es" "en" "Hola").1 =
      (translateTextSt (⟨fun s _ => (Except.ok ⟨[⟨⟨some "Hi"⟩⟩]⟩, s)⟩ : CallOracle Unit)
        () "es" "en" "Hola").1 :=
  c9_deterministic_idempotent (⟨fun s _ => (Except.ok ⟨[⟨⟨some "Hi"⟩⟩]⟩, s)⟩ : CallOracle Unit)
    (fun _ => Except.ok ⟨[⟨⟨some "Hi"⟩⟩]⟩) (fun _ _ => rfl) "es" "en" "Hola" ()

/-- Claim C10: `translateText` is total at its boundary — for every call
function, every pair of identifiers (present in the registries or not)
and every text, it returns a string, which is the unchanged input on the
identity path and otherwise arises from exactly one submitted request as
either the fixed failure string or the first choice's extracted
content; no other outcome (in particular no escaping exception) is
possible. -/
theorem c10_total_outcomes (call : CompletionRequest → Except Unit ChatCompletion)
    (a b t : String) :
    (a = b ∧ translateTextRun call a b t = (t, [])) ∨
    (a ≠ b ∧ (translateTextRun call a b t).2 = [translateRequest a b t] ∧
      ((translateTextRun call a b t).1 = "Error translating text" ∨
        ∃ resp choice rest, call (translateRequest a b t) = Except.ok resp ∧
          resp.choices = choice :: rest ∧
          (translateTextRun call a b t).1 = jsOrElseEmpty choice.message.content)) := by
  by_cases h : a = b
  · exact Or.inl ⟨h, by simp [translateTextRun, translateTextSt, h]⟩
  · refine Or.inr ⟨h, by rw [translateTextRun_eq call a b t h], ?_⟩
    rw [translateTextRun_eq call a b t h]
    cases hc : call (translateRequest a b t) with
    | error e => exact Or.inl rfl
    | ok result =>
      obtain ⟨choices⟩ := result
      cases choices with
      | nil => exact Or.inl rfl
      | cons choice rest => exact Or.inr ⟨⟨choice :: rest⟩, choice, rest, rfl, rfl, rfl⟩
